import Mathlib

/-!
Verification of the AArkboosted Website Auditor against its specification.

The React presentation layer under `frontend/src` is embedded directly:
the duplicated `getGrade` threshold tables, the falsy-score substitution
(`audit.score || 0`), the improvements categorizer of `AuditResults.js`
(the IIFE that partitions improvement strings into critical / major /
optimization buckets by scanning header markers, with its fallback), and
the section renderer that omits empty buckets.

The backend Audit Scoring Engine (weight-profile resolver, composite
scorer, finding prioritizer) is not part of the checked sources; those
components are modelled from the specification text, as marked on each
definition.
-/

namespace Auditor

/-- `getGrade` from `frontend/src/components/AuditResults.js` (lines 514-524):
the academic grading scale mapping a numeric score to a letter grade. -/
def getGradeResults (score : Int) : String :=
  if score ≥ 93 then "A+"
  else if score ≥ 87 then "A"
  else if score ≥ 80 then "A-"
  else if score ≥ 73 then "B"
  else if score ≥ 67 then "C"
  else if score ≥ 60 then "D"
  else "F"

/-- `getGrade` from the audit list component (`AuditList`): the duplicated
academic grading scale. -/
def getGradeList (score : Int) : String :=
  if score ≥ 93 then "A+"
  else if score ≥ 87 then "A"
  else if score ≥ 80 then "A-"
  else if score ≥ 73 then "B"
  else if score ≥ 67 then "C"
  else if score ≥ 60 then "D"
  else "F"

/-- JavaScript `score || 0` on a possibly absent / null numeric field:
a missing value or the falsy number `0` is replaced by `0`. -/
def jsOr0 : Option Int → Int
  | none => 0
  | some v => if v = 0 then 0 else v

/-- A score field is falsy when it is absent/null or the number `0`. -/
def scoreFalsy (s : Option Int) : Prop := s = none ∨ s = some 0

/-- The `Score: {audit.score || 0}/100` fragment rendered by `AuditList`. -/
def scoreLineList (s : Option Int) : String := toString (jsOr0 s) ++ "/100"

/-- The grade rendered by `AuditList` via `getGrade(audit.score || 0)`. -/
def gradeShownList (s : Option Int) : String := getGradeList (jsOr0 s)

/-- The `{audit.score || 0}/100` fragment rendered by `AuditResults`. -/
def scoreLineResults (s : Option Int) : String := toString (jsOr0 s) ++ "/100"

/-- The grade rendered by `AuditResults` via `getGrade(audit.score || 0)`. -/
def gradeShownResults (s : Option Int) : String := getGradeResults (jsOr0 s)

/-- Substring test on codepoint sequences: does the sequence contain `pat`
as a contiguous run?  Models JavaScript `String.prototype.includes`. -/
def hasSeq (pat : List Char) : List Char → Bool
  | [] => pat.isEmpty
  | c :: rest => pat.isPrefixOf (c :: rest) || hasSeq pat rest

/-- `s.includes(pat)` from JavaScript, on Lean strings. -/
def sIncludes (s pat : String) : Bool := hasSeq pat.data s.data

/-- UTF-16 length of one codepoint (JavaScript counts surrogate pairs as 2). -/
def jsCharLen (c : Char) : Nat := if c.toNat ≥ 65536 then 2 else 1

/-- JavaScript `String.prototype.length`: number of UTF-16 code units. -/
def jsLen (s : String) : Nat := (s.data.map jsCharLen).sum

/-- Severity buckets used by the improvements renderer in `AuditResults.js`. -/
inductive Severity where
  | critical
  | major
  | optimization
deriving DecidableEq

/-- The three item lists built by the categorizer IIFE in `AuditResults.js`
(lines 901-905): `categories.critical.items`, `.major.items`,
`.optimization.items`. -/
structure Buckets where
  critical : List String
  major : List String
  optimization : List String
deriving DecidableEq

/-- Header markers recognized as critical (AuditResults.js lines 911-913). -/
def criticalHeaders : List String :=
  ["🚨 CRITICAL BUSINESS RISKS:", "🚨 URGENT:", "🚨 Critical Business Risks"]

/-- Header markers recognized as major (lines 915-917). -/
def majorHeaders : List String :=
  ["⚠️ MAJOR GROWTH BLOCKERS:", "⚠️ MAJOR:", "⚠️ Major Growth Blockers"]

/-- Header markers recognized as optimization (lines 919-921). -/
def optHeaders : List String :=
  ["🔧 OPTIMIZATION OPPORTUNITIES:", "🔧 OPTIMIZATION:", "🔧 Optimization Opportunities"]

/-- The six all-caps markers re-checked before pushing an item (lines 924-929). -/
def upperHeaders : List String :=
  ["🚨 CRITICAL BUSINESS RISKS:", "⚠️ MAJOR GROWTH BLOCKERS:",
   "🔧 OPTIMIZATION OPPORTUNITIES:", "🚨 URGENT:", "⚠️ MAJOR:", "🔧 OPTIMIZATION:"]

/-- Disjunction of `item.includes(p)` over a list of marker strings. -/
def hitsAny (item : String) (pats : List String) : Bool :=
  pats.any (fun p => sIncludes item p)

/-- `categories[currentCategory].items.push(item)` on the bucket record. -/
def pushItem (b : Buckets) (c : Severity) (item : String) : Buckets :=
  match c with
  | .critical => { b with critical := b.critical ++ [item] }
  | .major => { b with major := b.major ++ [item] }
  | .optimization => { b with optimization := b.optimization ++ [item] }

/-- One iteration of the `audit.improvements.forEach` loop (lines 909-933):
a recognized header switches the current bucket; otherwise, when a bucket is
current and the item carries none of the all-caps markers, the item is pushed
onto the current bucket. -/
def catStep (st : Option Severity × Buckets) (item : String) :
    Option Severity × Buckets :=
  if hitsAny item criticalHeaders then (some .critical, st.2)
  else if hitsAny item majorHeaders then (some .major, st.2)
  else if hitsAny item optHeaders then (some .optimization, st.2)
  else
    match st.1 with
    | some c =>
        if hitsAny item upperHeaders then st else (some c, pushItem st.2 c item)
    | none => st

/-- JavaScript `String.prototype.trim`: drop whitespace from both ends. -/
def jsTrim (s : String) : String :=
  String.mk
    (((s.data.dropWhile Char.isWhitespace).reverse.dropWhile Char.isWhitespace).reverse)

/-- The fallback filter of lines 940-945: an improvement is kept (and pushed
into the critical bucket) when it contains neither the urgent marker nor
"Issues Requiring" and its trimmed length exceeds 10 code units. -/
def fallbackKeep (item : String) : Bool :=
  !(sIncludes item "🚨 URGENT:") && !(sIncludes item "Issues Requiring") &&
    decide (jsLen (jsTrim item) > 10)

/-- An improvement string free of all nine recognized bucket header markers. -/
def noHeaderMark (t : String) : Bool :=
  !(hitsAny t criticalHeaders) && !(hitsAny t majorHeaders) && !(hitsAny t optHeaders)

/-- The full categorizer IIFE of `AuditResults.js` (lines 899-946): fold the
header-scanning loop over the improvements, then, if nothing was categorized
and the list is non-empty, place every fallback-qualifying item in the
critical bucket. -/
def categorize (improvements : List String) : Buckets :=
  let b := (improvements.foldl catStep (none, ⟨[], [], []⟩)).2
  if b.critical.length + b.major.length + b.optimization.length = 0 ∧
      improvements.length > 0 then
    { critical := improvements.filter fallbackKeep, major := [], optimization := [] }
  else b

/-- `item.replace(/^MARK\s*/, '')`: when the string starts with `mark`, drop
it together with the following whitespace run. -/
def dropLead (mark s : String) : String :=
  if mark.data.isPrefixOf s.data then
    String.mk ((s.data.drop mark.data.length).dropWhile Char.isWhitespace)
  else s

/-- The chained emoji strip applied to each rendered item (line 984). -/
def stripMarks (s : String) : String :=
  dropLead "🔧" (dropLead "⚠️" (dropLead "🚨" s))

/-- A rendered severity section: heading title, item count badge, items. -/
structure RSection where
  title : String
  count : Nat
  items : List String
deriving DecidableEq

/-- The rendering of lines 948-991: sections appear in the fixed order
critical, major, optimization, and a section is emitted only when
`category.items.length > 0`. -/
def renderSections (b : Buckets) : List RSection :=
  (if b.critical.length > 0 then
    [⟨"Critical Business Risks", b.critical.length, b.critical.map stripMarks⟩]
   else []) ++
  (if b.major.length > 0 then
    [⟨"Major Growth Blockers", b.major.length, b.major.map stripMarks⟩]
   else []) ++
  (if b.optimization.length > 0 then
    [⟨"Optimization Opportunities", b.optimization.length, b.optimization.map stripMarks⟩]
   else [])

/-- The six audited categories (spec §3). -/
inductive Category where
  | security
  | performance
  | seo
  | mobile
  | content
  | uiux
deriving DecidableEq

/-- Modelled from the spec: `WeightProfile` (§3), a mapping category →
integer weight; the backend engine holding it is not under the checked
sources. -/
structure WeightProfile where
  security : Nat
  performance : Nat
  seo : Nat
  mobile : Nat
  content : Nat
  uiux : Nat
deriving DecidableEq

/-- Look up a category's weight in a profile. -/
def WeightProfile.get (w : WeightProfile) : Category → Nat
  | .security => w.security
  | .performance => w.performance
  | .seo => w.seo
  | .mobile => w.mobile
  | .content => w.content
  | .uiux => w.uiux

/-- Sum of a profile's six category weights. -/
def wsum (w : WeightProfile) : Nat :=
  w.security + w.performance + w.seo + w.mobile + w.content + w.uiux

/-- Modelled from the spec: the deterministic default profile with equal-ish
weights returned for an unknown website type (§4.2). -/
def defaultProfile : WeightProfile := ⟨17, 17, 17, 17, 16, 16⟩

/-- The nine known website types (spec §4.2). -/
def supportedTypes : List String :=
  ["landing-page", "website", "large-website", "e-commerce", "blog",
   "portfolio", "search-engine", "web-app", "corporate"]

/-- Modelled from the spec: the Weight Profile Resolver `resolve` (§4.2); the
backend engine implementing it is not under the checked sources.  Each of the
nine known website types maps to a fixed table summing to 100, reflecting the
stated business priorities (e-commerce weights security highest, blog weights
content/SEO highest, portfolio weights UI/UX highest); any other string falls
back to the default profile, never an error. -/
def resolve (t : String) : WeightProfile :=
  if t = "landing-page" then ⟨15, 20, 20, 20, 10, 15⟩
  else if t = "website" then ⟨20, 20, 15, 15, 15, 15⟩
  else if t = "large-website" then ⟨20, 25, 15, 15, 10, 15⟩
  else if t = "e-commerce" then ⟨30, 20, 15, 15, 10, 10⟩
  else if t = "blog" then ⟨10, 15, 25, 15, 25, 10⟩
  else if t = "portfolio" then ⟨10, 15, 10, 15, 15, 35⟩
  else if t = "search-engine" then ⟨15, 25, 25, 15, 10, 10⟩
  else if t = "web-app" then ⟨25, 25, 10, 15, 10, 15⟩
  else if t = "corporate" then ⟨25, 15, 15, 15, 15, 15⟩
  else defaultProfile

/-- The six categories in breakdown order. -/
def allCats : List Category :=
  [.security, .performance, .seo, .mobile, .content, .uiux]

/-- One breakdown cell of a `CompositeScore`: per-category score and weight. -/
structure CatCell where
  score : Nat
  weight : Nat

/-- Modelled from the spec: `CompositeScore` (§3) — overall 0-100 score,
letter grade, and the category → {score, weight} breakdown. -/
structure CompositeScore where
  overall : Nat
  grade : String
  breakdown : Category → CatCell

/-- Weighted total `Σ score(c) * weight(c)` over the six categories. -/
def weightedTotal (scores : Category → Nat) (w : WeightProfile) : Nat :=
  (allCats.map (fun c => scores c * w.get c)).sum

/-- `Σ breakdown[c].score * breakdown[c].weight` of a composite score. -/
def bdTotal (cs : CompositeScore) : Nat :=
  (allCats.map (fun c => (cs.breakdown c).score * (cs.breakdown c).weight)).sum

/-- Modelled from the spec: the Composite Scorer `score` (§4.3); the backend
engine implementing it is not under the checked sources.  The overall score
is the weighted sum of category scores divided by 100 and rounded to the
nearest integer, half up (computed in integer arithmetic as
`(total + 50) / 100`), and the grade follows the fixed academic table. -/
def scoreComposite (scores : Category → Nat) (w : WeightProfile) : CompositeScore :=
  let overall := (weightedTotal scores w + 50) / 100
  { overall := overall
    grade := getGradeResults (overall : Int)
    breakdown := fun c => ⟨scores c, w.get c⟩ }

/-- Round-half-up written the way the spec words it: the nearest integer to
the rational `q`, with ties going up, i.e. `⌊q + 1/2⌋`. -/
def roundHalfUp (q : ℚ) : ℤ := ⌊q + 1 / 2⌋

/-- Modelled from the spec: `Finding` (§3) — text plus explicit structured
severity and category fields. -/
structure Finding where
  text : String
  severity : Severity
  category : Category
deriving DecidableEq

/-- The prioritizer's output buckets of structured findings. -/
structure FBuckets where
  critical : List Finding
  major : List Finding
  optimization : List Finding
deriving DecidableEq

/-- Look up a severity's bucket. -/
def FBuckets.get (b : FBuckets) : Severity → List Finding
  | .critical => b.critical
  | .major => b.major
  | .optimization => b.optimization

/-- Case-insensitive key used to compare finding texts. -/
def textKey (f : Finding) : String := f.text.toLower

/-- Drop findings whose case-insensitive text duplicates an earlier one,
keeping the first occurrence. -/
def dedupTexts : List Finding → List Finding
  | [] => []
  | f :: fs => f :: dedupTexts (fs.filter (fun g => !(textKey g == textKey f)))
termination_by l => l.length
decreasing_by
  simp only [List.length_cons]
  exact Nat.lt_succ_of_le (List.length_filter_le _ _)

/-- Modelled from the spec: the Finding Prioritizer `prioritize` (§4.4); the
backend engine implementing it is not under the checked sources.  Findings
are partitioned by their explicit severity field in input order, and exact
duplicate texts (case-insensitive) within a bucket are collapsed to the
first occurrence. -/
def prioritize (findings : List Finding) : FBuckets :=
  { critical := dedupTexts (findings.filter (fun f => f.severity == .critical))
    major := dedupTexts (findings.filter (fun f => f.severity == .major))
    optimization :=
      dedupTexts (findings.filter (fun f => f.severity == .optimization)) }

/-- C1: for every integer score, the grade assigned follows the fixed
academic threshold table with inclusive lower bounds: ≥93 gives "A+",
≥87 gives "A", ≥80 gives "A-", ≥73 gives "B", ≥67 gives "C", ≥60 gives
"D", and anything lower gives "F". -/
theorem claim_C1_grade_thresholds (s : Int) :
    (93 ≤ s → getGradeResults s = "A+") ∧
    (87 ≤ s → s < 93 → getGradeResults s = "A") ∧
    (80 ≤ s → s < 87 → getGradeResults s = "A-") ∧
    (73 ≤ s → s < 80 → getGradeResults s = "B") ∧
    (67 ≤ s → s < 73 → getGradeResults s = "C") ∧
    (60 ≤ s → s < 67 → getGradeResults s = "D") ∧
    (s < 60 → getGradeResults s = "F") := by
  unfold getGradeResults
  refine ⟨?_, ?_, ?_, ?_, ?_, ?_, ?_⟩ <;> intros <;>
    split_ifs <;> first | rfl | (exfalso; omega)

/-- C1 witness: in particular a score of 93 is graded "A+" and 92 is
graded "A". -/
theorem claim_C1_grade_thresholds_witness :
    getGradeResults 93 = "A+" ∧ getGradeResults 92 = "A" :=
  ⟨(claim_C1_grade_thresholds 93).1 (by decide),
   (claim_C1_grade_thresholds 92).2.1 (by decide) (by decide)⟩

/-- C8: the `getGrade` threshold table duplicated in the audit list
component and the audit results component is extensionally the same
function. -/
theorem claim_C8_dup_grade_tables_agree (s : Int) :
    getGradeList s = getGradeResults s := rfl

/-- C10: when the score field is absent, null, or the falsy number 0, both
the audit list view and the audit results view substitute 0, rendering
"0/100" and grade "F". -/
theorem claim_C10_falsy_score_defaults (s : Option Int) (h : scoreFalsy s) :
    scoreLineList s = "0/100" ∧ gradeShownList s = "F" ∧
    scoreLineResults s = "0/100" ∧ gradeShownResults s = "F" := by
  rcases h with h | h <;> subst h <;>
    exact ⟨by decide, by decide, by decide, by decide⟩

/-- C10 witness: an absent score renders as "0/100" with grade "F" in
both views. -/
theorem claim_C10_falsy_score_defaults_witness :
    scoreLineList none = "0/100" ∧ gradeShownList none = "F" ∧
    scoreLineResults none = "0/100" ∧ gradeShownResults none = "F" :=
  claim_C10_falsy_score_defaults none (Or.inl rfl)

/-- C2: every supported website type resolves to a weight profile whose six
integer weights sum to exactly 100, and every unknown website type resolves
to the deterministic default profile rather than an error. -/
theorem claim_C2_weight_profile_invariant (t : String) :
    (t ∈ supportedTypes → wsum (resolve t) = 100) ∧
    (t ∉ supportedTypes → resolve t = defaultProfile) := by
  constructor
  · intro h
    fin_cases h <;> decide
  · intro h
    simp only [supportedTypes, List.mem_cons, List.not_mem_nil, or_false,
      not_or] at h
    obtain ⟨h1, h2, h3, h4, h5, h6, h7, h8, h9⟩ := h
    unfold resolve
    rw [if_neg h1, if_neg h2, if_neg h3, if_neg h4, if_neg h5, if_neg h6,
      if_neg h7, if_neg h8, if_neg h9]

/-- C2 witness: the blog profile sums to 100 and the unknown type
"foo-bar" resolves to the default profile. -/
theorem claim_C2_weight_profile_invariant_witness :
    wsum (resolve "blog") = 100 ∧ resolve "foo-bar" = defaultProfile :=
  ⟨(claim_C2_weight_profile_invariant "blog").1 (by decide),
   (claim_C2_weight_profile_invariant "foo-bar").2 (by decide)⟩

theorem dedupTexts_mem_of : ∀ (l : List Finding), ∀ f ∈ dedupTexts l, f ∈ l := by
  intro l
  induction l using dedupTexts.induct with
  | case1 => simp [dedupTexts]
  | case2 f fs ih =>
    intro g hg
    rw [dedupTexts] at hg
    rcases List.mem_cons.mp hg with h | h
    · exact h ▸ List.mem_cons_self _ _
    · exact List.mem_cons_of_mem _ (List.mem_of_mem_filter (ih g h))

theorem dedupTexts_pairwise :
    ∀ (l : List Finding),
      (dedupTexts l).Pairwise (fun a b => textKey a ≠ textKey b) := by
  intro l
  induction l using dedupTexts.induct with
  | case1 => simp [dedupTexts]
  | case2 f fs ih =>
    rw [dedupTexts]
    refine List.Pairwise.cons ?_ ih
    intro b hb
    have hbf := dedupTexts_mem_of _ b hb
    have hne := (List.mem_filter.mp hbf).2
    simp only [Bool.not_eq_true', beq_eq_false_iff_ne, ne_eq] at hne
    exact fun hEq => hne hEq.symm

theorem dedupTexts_covers :
    ∀ (l : List Finding), ∀ f ∈ l, ∃ g ∈ dedupTexts l, textKey g = textKey f := by
  intro l
  induction l using dedupTexts.induct with
  | case1 => simp
  | case2 f fs ih =>
    intro x hx
    rw [dedupTexts]
    rcases List.mem_cons.mp hx with h | h
    · exact ⟨f, List.mem_cons_self _ _, by rw [h]⟩
    · by_cases hk : textKey x = textKey f
      · exact ⟨f, List.mem_cons_self _ _, hk.symm⟩
      · have hxf : x ∈ fs.filter (fun g => !(textKey g == textKey f)) :=
          List.mem_filter.mpr ⟨h, by simp [hk]⟩
        obtain ⟨g, hg, hgk⟩ := ih x hxf
        exact ⟨g, List.mem_cons_of_mem _ hg, hgk⟩

/-- C4: in every bucket produced by the prioritizer, no two entries share
the same case-insensitive text (exact duplicates are collapsed), and each
input finding is still represented in its severity's bucket by an entry
with the same case-insensitive text. -/
theorem claim_C4_prioritizer_dedup (fs : List Finding) :
    ((prioritize fs).critical.Pairwise fun a b => textKey a ≠ textKey b) ∧
    ((prioritize fs).major.Pairwise fun a b => textKey a ≠ textKey b) ∧
    ((prioritize fs).optimization.Pairwise fun a b => textKey a ≠ textKey b) ∧
    (∀ f ∈ fs, ∃ g ∈ (prioritize fs).get f.severity, textKey g = textKey f) := by
  refine ⟨dedupTexts_pairwise _, dedupTexts_pairwise _, dedupTexts_pairwise _, ?_⟩
  intro f hf
  cases h : f.severity <;>
    simp only [prioritize, FBuckets.get] <;>
    exact dedupTexts_covers _ f (List.mem_filter.mpr ⟨hf, by simp [h]⟩)

/-- C4 witness: on a concrete pair of same-severity findings differing only
in case, the prioritizer's buckets are duplicate-free and still cover both
texts. -/
theorem claim_C4_prioritizer_dedup_witness :
    ((prioritize [⟨"Enable HTTPS", .critical, .security⟩,
        ⟨"enable https", .critical, .security⟩]).critical.Pairwise
      fun a b => textKey a ≠ textKey b) ∧
    ((prioritize [⟨"Enable HTTPS", .critical, .security⟩,
        ⟨"enable https", .critical, .security⟩]).major.Pairwise
      fun a b => textKey a ≠ textKey b) ∧
    ((prioritize [⟨"Enable HTTPS", .critical, .security⟩,
        ⟨"enable https", .critical, .security⟩]).optimization.Pairwise
      fun a b => textKey a ≠ textKey b) ∧
    (∀ f ∈ [(⟨"Enable HTTPS", .critical, .security⟩ : Finding),
        ⟨"enable https", .critical, .security⟩],
      ∃ g ∈ (prioritize [⟨"Enable HTTPS", .critical, .security⟩,
        ⟨"enable https", .critical, .security⟩]).get f.severity,
        textKey g = textKey f) :=
  claim_C4_prioritizer_dedup
    [⟨"Enable HTTPS", .critical, .security⟩, ⟨"enable https", .critical, .security⟩]

theorem natDiv_eq_roundHalfUp (t : ℕ) :
    (((t + 50) / 100 : ℕ) : ℤ) = roundHalfUp ((t : ℚ) / 100) := by
  unfold roundHalfUp
  have h : (t : ℚ) / 100 + 1 / 2 = ((t + 50 : ℕ) : ℚ) / ((100 : ℕ) : ℚ) := by
    push_cast
    ring
  rw [h, Rat.floor_natCast_div_natCast]
  exact (Int.ofNat_tdiv _ _).symm

/-- C3: for every composite score produced by the composite scorer, the
overall score equals the weighted sum of the per-category breakdown scores
times their weights, divided by 100 and rounded to the nearest integer with
ties going up. -/
theorem claim_C3_overall_is_rounded_weighted_sum
    (scores : Category → Nat) (w : WeightProfile) :
    ((scoreComposite scores w).overall : ℤ) =
      roundHalfUp ((bdTotal (scoreComposite scores w) : ℚ) / 100) := by
  have hbd : bdTotal (scoreComposite scores w) = weightedTotal scores w := rfl
  rw [hbd]
  exact natDiv_eq_roundHalfUp (weightedTotal scores w)

/-- C3 witness: with every category scoring 95 under the portfolio profile,
the overall equals the spec's rounding of the weighted sum. -/
theorem claim_C3_overall_is_rounded_weighted_sum_witness :
    ((scoreComposite (fun _ => 95) (resolve "portfolio")).overall : ℤ) =
      roundHalfUp
        ((bdTotal (scoreComposite (fun _ => 95) (resolve "portfolio")) : ℚ) / 100) :=
  claim_C3_overall_is_rounded_weighted_sum (fun _ => 95) (resolve "portfolio")

theorem catStep_buckets (st : Option Severity × Buckets) (item : String) :
    ((catStep st item).2.critical = st.2.critical ∨
      (catStep st item).2.critical = st.2.critical ++ [item]) ∧
    ((catStep st item).2.major = st.2.major ∨
      (catStep st item).2.major = st.2.major ++ [item]) ∧
    ((catStep st item).2.optimization = st.2.optimization ∨
      (catStep st item).2.optimization = st.2.optimization ++ [item]) := by
  rcases st with ⟨cur, b⟩
  unfold catStep
  cases cur with
  | none => split_ifs <;> simp [pushItem]
  | some c => cases c <;> split_ifs <;> simp [pushItem]

theorem foldl_catStep_proj (proj : Buckets → List String)
    (hstep : ∀ st item, proj (catStep st item).2 = proj st.2 ∨
      proj (catStep st item).2 = proj st.2 ++ [item]) :
    ∀ (l : List String) (st : Option Severity × Buckets),
      ∃ s, proj ((l.foldl catStep st).2) = proj st.2 ++ s ∧ s.Sublist l := by
  intro l
  induction l with
  | nil => exact fun st => ⟨[], by simp, List.Sublist.refl _⟩
  | cons item rest ih =>
    intro st
    obtain ⟨s, hs, hsub⟩ := ih (catStep st item)
    rcases hstep st item with h | h
    · refine ⟨s, ?_, List.Sublist.cons _ hsub⟩
      simpa [List.foldl_cons, h] using hs
    · refine ⟨item :: s, ?_, List.Sublist.cons₂ _ hsub⟩
      simp only [List.foldl_cons]
      rw [hs, h, List.append_assoc]
      rfl

/-- C5: the partition of improvement items into the critical, major and
optimization buckets is stable: each bucket is a sublist of the input, so
items sharing a bucket keep their relative input order and nothing is
re-sorted. -/
theorem claim_C5_stable_partition (imps : List String) :
    (categorize imps).critical.Sublist imps ∧
    (categorize imps).major.Sublist imps ∧
    (categorize imps).optimization.Sublist imps := by
  simp only [categorize]
  split_ifs with hc
  · exact ⟨List.filter_sublist _, List.nil_sublist _, List.nil_sublist _⟩
  · obtain ⟨s1, hs1, hb1⟩ := foldl_catStep_proj Buckets.critical
      (fun st item => (catStep_buckets st item).1) imps (none, ⟨[], [], []⟩)
    obtain ⟨s2, hs2, hb2⟩ := foldl_catStep_proj Buckets.major
      (fun st item => (catStep_buckets st item).2.1) imps (none, ⟨[], [], []⟩)
    obtain ⟨s3, hs3, hb3⟩ := foldl_catStep_proj Buckets.optimization
      (fun st item => (catStep_buckets st item).2.2) imps (none, ⟨[], [], []⟩)
    exact ⟨by rw [hs1]; simpa using hb1,
      by rw [hs2]; simpa using hb2,
      by rw [hs3]; simpa using hb3⟩

/-- C6: a severity bucket with zero items is omitted entirely from the
rendered output — the rendered section titles are exactly those of the
non-empty buckets, in the fixed order, with no header for an empty one. -/
theorem claim_C6_empty_bucket_omitted (b : Buckets) :
    (renderSections b).map RSection.title =
      (if b.critical = [] then [] else ["Critical Business Risks"]) ++
      (if b.major = [] then [] else ["Major Growth Blockers"]) ++
      (if b.optimization = [] then [] else ["Optimization Opportunities"]) := by
  rcases b with ⟨c, m, o⟩
  cases c <;> cases m <;> cases o <;> simp [renderSections]

theorem catStep_no_marker (b : Buckets) (item : String)
    (h : noHeaderMark item = true) :
    catStep (none, b) item = (none, b) := by
  simp only [noHeaderMark, Bool.and_eq_true, Bool.not_eq_true'] at h
  obtain ⟨⟨h1, h2⟩, h3⟩ := h
  simp [catStep, h1, h2, h3]

theorem foldl_no_marker (l : List String)
    (h : ∀ i ∈ l, noHeaderMark i = true) :
    l.foldl catStep (none, (⟨[], [], []⟩ : Buckets)) = (none, ⟨[], [], []⟩) := by
  induction l with
  | nil => rfl
  | cons item rest ih =>
    simp only [List.foldl_cons,
      catStep_no_marker _ item (h item (List.mem_cons_self _ _))]
    exact ih fun i hi => h i (List.mem_cons_of_mem _ hi)

/-- C9: when no improvement contains any recognized bucket header marker,
the loop categorizes nothing and the fallback puts exactly the items
passing its filter (no urgent marker, no "Issues Requiring", trimmed
length over 10) into the critical bucket, so the rendered output consists
of the critical section alone. -/
theorem claim_C9_fallback_goes_critical (imps : List String)
    (h : ∀ i ∈ imps, noHeaderMark i = true) :
    categorize imps = ⟨imps.filter fallbackKeep, [], []⟩ ∧
    (renderSections (categorize imps)).map RSection.title =
      (if imps.filter fallbackKeep = [] then []
       else ["Critical Business Risks"]) := by
  have hfold := foldl_no_marker imps h
  have hcat : categorize imps = ⟨imps.filter fallbackKeep, [], []⟩ := by
    simp only [categorize, hfold]
    cases imps with
    | nil => simp
    | cons a as => simp
  refine ⟨hcat, ?_⟩
  rw [hcat]
  by_cases he : imps.filter fallbackKeep = []
  · simp [renderSections, he]
  · simp [renderSections, he, List.length_pos.mpr he]

/-- C9 witness: a marker-free improvements list is placed wholly in the
critical bucket (items failing the fallback filter dropped) and rendered
under the critical heading only. -/
theorem claim_C9_fallback_goes_critical_witness :
    categorize ["please fix the TLS setup soon", "ok"] =
      ⟨["please fix the TLS setup soon", "ok"].filter fallbackKeep, [], []⟩ ∧
    (renderSections (categorize ["please fix the TLS setup soon", "ok"])).map
        RSection.title =
      (if ["please fix the TLS setup soon", "ok"].filter fallbackKeep = [] then []
       else ["Critical Business Risks"]) :=
  claim_C9_fallback_goes_critical ["please fix the TLS setup soon", "ok"] (by decide)

/-- C7 counterexample: bucket assignment scans the item text for markers.
The same remediation text lands in the critical bucket when plain, but
embedding the urgent emoji marker inside the text makes the categorizer
treat it as a header and the fallback drop it, leaving every bucket
empty. -/
theorem claim_C7_counterexample :
    (categorize ["fix the TLS certificate chain"]).critical =
      ["fix the TLS certificate chain"] ∧
    categorize ["🚨 URGENT: fix the TLS certificate chain"] =
      (⟨[], [], []⟩ : Buckets) :=
  ⟨by decide, by decide⟩

theorem no_upper_of_noHeaderMark (t : String) (h : noHeaderMark t = true) :
    hitsAny t upperHeaders = false := by
  revert h
  simp only [noHeaderMark, hitsAny, criticalHeaders, majorHeaders, optHeaders,
    upperHeaders, List.any_cons, List.any_nil, Bool.and_eq_true,
    Bool.not_eq_true', Bool.or_eq_false_iff]
  tauto

/-- C7 amended: improvements reach the renderer as plain strings with no
structured severity field, and bucket assignment is driven by scanning
marker text: a marker-free item passing the fallback filter is bucketed
critical when it stands alone, but the very same item is bucketed major or
optimization when preceded by the corresponding all-caps header marker
string. -/
theorem claim_C7_amended_marker_driven (t : String)
    (hm : noHeaderMark t = true) (hf : fallbackKeep t = true) :
    (categorize [t]).critical = [t] ∧
    (categorize ["⚠️ MAJOR:", t]).major = [t] ∧
    (categorize ["🔧 OPTIMIZATION:", t]).optimization = [t] := by
  have h4 := no_upper_of_noHeaderMark t hm
  simp only [noHeaderMark, Bool.and_eq_true, Bool.not_eq_true'] at hm
  obtain ⟨⟨h1, h2⟩, h3⟩ := hm
  have m1 : hitsAny "⚠️ MAJOR:" criticalHeaders = false := by decide
  have m2 : hitsAny "⚠️ MAJOR:" majorHeaders = true := by decide
  have o1 : hitsAny "🔧 OPTIMIZATION:" criticalHeaders = false := by decide
  have o2 : hitsAny "🔧 OPTIMIZATION:" majorHeaders = false := by decide
  have o3 : hitsAny "🔧 OPTIMIZATION:" optHeaders = true := by decide
  refine ⟨?_, ?_, ?_⟩ <;>
    simp [categorize, catStep, pushItem, h1, h2, h3, h4, hf, m1, m2, o1, o2, o3]

/-- C7 amended witness: the item "improve page speed for mobile" is
bucketed critical alone, major after the major header, optimization after
the optimization header. -/
theorem claim_C7_amended_marker_driven_witness :
    (categorize ["improve page speed for mobile"]).critical =
      ["improve page speed for mobile"] ∧
    (categorize ["⚠️ MAJOR:", "improve page speed for mobile"]).major =
      ["improve page speed for mobile"] ∧
    (categorize ["🔧 OPTIMIZATION:", "improve page speed for mobile"]).optimization =
      ["improve page speed for mobile"] :=
  claim_C7_amended_marker_driven "improve page speed for mobile"
    (by decide) (by decide)

end Auditor
